import Mathlib

/-!
Verification of the frame synchronization / swapchain lifecycle core of the
vulkan-examples repository (crates/libs/app/src/lib.rs and
crates/libs/vulkan/src/{sync,queue,query}.rs).

The embedding models the synchronization-relevant skeleton of
`BaseApp::draw`, `AppWrapper::about_to_wait`, `BaseApp::recreate_swapchain`,
`InFlightFrames` and `VkFence` as pure Lean functions over an explicit state,
producing a trace of the synchronization-relevant actions each call performs.
Fence semantics: a fence is `signaled` or has a `pending` submission that the
GPU will eventually signal; a CPU-side wait returns successfully exactly when
one of the two holds (otherwise it would block forever), and it returns
immediately when the fence is already signaled.

The contents of `Swapchain::acquire_next_image`, `Swapchain::queue_present`
and `Swapchain::update` (crates/libs/vulkan/src/swapchain.rs) are not part of
the sources; their outcomes are treated as environment inputs, shaped after
the specification (staleness at acquire is reported as the out-of-date error
consumed by `draw`; present reports staleness either as the out-of-date error
or as a suboptimal flag).
-/

/-- Identity of a binary semaphore owned by a per-frame slot
(`PerFrame.image_available_semaphore` / `PerFrame.render_finished_semaphore`). -/
inductive SemId where
  | imageAvailable (slot : Nat)
  | renderFinished (slot : Nat)
  deriving DecidableEq, Repr

/-- The synchronization-relevant actions performed by the frame loop, in
program order.  `waitFence slot already` is a fence wait that returned
success; `already` records whether the fence was already signaled when the
wait started (immediate return). -/
inductive Event where
  | waitFence (slot : Nat) (alreadySignaled : Bool)
  | readQueryPool (slot : Nat)
  | acquireImage (slot : Nat)
  | resetFence (slot : Nat)
  | record (imageIndex : Nat)
  | submit (slot : Nat) (waitSem signalSem : SemId)
  | present (imageIndex : Nat) (waitSem : SemId)
  | deviceWaitIdle
  | swapchainUpdate (width height : Nat) (format : Option Nat)
  | recreateStorageImages
  | guiUpdateFramebufferParams (format : Nat)
  deriving DecidableEq, Repr

/-- State of one `VkFence`: `signaled` is the Vulkan fence status; `pending`
means a queue submission that will signal the fence is in flight on the GPU. -/
structure FenceState where
  signaled : Bool
  pending : Bool
  deriving DecidableEq, Repr

/-- Subset of `vk::FenceCreateFlags` used by the sources. -/
inductive FenceCreateFlags where
  | empty
  | signaled
  deriving DecidableEq, Repr

/-- Embeds `VkFence::new` (sync.rs): `flags.unwrap_or_else(empty)`, then the
fence starts signaled exactly when the SIGNALED flag is given.  A fresh fence
has no pending submission. -/
def VkFence.new (flags : Option FenceCreateFlags) : FenceState :=
  match flags.getD FenceCreateFlags.empty with
  | FenceCreateFlags.signaled => { signaled := true, pending := false }
  | FenceCreateFlags.empty => { signaled := false, pending := false }

/-- Embeds `InFlightFrames` (app lib.rs): per-slot fence states plus the
current frame index.  The semaphores and query pool of a slot are identified
by the slot index in the trace and carry no further state here. -/
structure InFlightFrames where
  perFrames : List FenceState
  currentFrame : Nat
  deriving DecidableEq, Repr

/-- Embeds `InFlightFrames::new`: `frame_count` slots, each fence created
with `vk::FenceCreateFlags::SIGNALED`, and `current_frame: 0`. -/
def InFlightFrames.new (frameCount : Nat) : InFlightFrames :=
  { perFrames := List.replicate frameCount (VkFence.new (some FenceCreateFlags.signaled))
    currentFrame := 0 }

/-- Embeds `InFlightFrames::next`:
`current_frame = (current_frame + 1) % per_frames.len()`. -/
def InFlightFrames.next (s : InFlightFrames) : InFlightFrames :=
  { s with currentFrame := (s.currentFrame + 1) % s.perFrames.length }

/-- Embeds `InFlightFrames::fence`: the fence of the current slot. -/
def InFlightFrames.fence (s : InFlightFrames) : FenceState :=
  s.perFrames.getD s.currentFrame { signaled := false, pending := false }

/-- Replaces the fence state of the current slot. -/
def InFlightFrames.setFence (s : InFlightFrames) (f : FenceState) : InFlightFrames :=
  { s with perFrames := s.perFrames.set s.currentFrame f }

/-- Embeds the `IN_FLIGHT_FRAMES` constant of app lib.rs. -/
def IN_FLIGHT_FRAMES : Nat := 2

/-- The fields of `FrameStats` read or written by the synchronization
skeleton of `draw`: the monotone frame counter and the last reported GPU
time (in nanoseconds, as a `Nat`). -/
structure FrameStats where
  totalFrameCount : Nat
  gpuTime : Nat
  deriving DecidableEq, Repr

/-- Embeds the gpu-time expression of `BaseApp::draw`:
`(total_frame_count >= IN_FLIGHT_FRAMES).then(|| gpu_frame_time_ms()).transpose()?.unwrap_or_default()`.
Before `IN_FLIGHT_FRAMES` frames the query pool is not read and the default
(zero) duration is used; afterwards the measured duration is used. -/
def gpuTimeReport (totalFrameCount measured : Nat) : Nat :=
  if IN_FLIGHT_FRAMES ≤ totalFrameCount then measured else 0

/-- Outcome of `Swapchain::acquire_next_image` as consumed by `draw`: an
acquired image index, the out-of-date error (handled), or any other error
(which `draw` turns into a panic). -/
inductive AcquireOutcome where
  | success (index : Nat)
  | outOfDate
  | otherError
  deriving DecidableEq, Repr

/-- Outcome of `Swapchain::queue_present` as consumed by `draw`: `Ok(flag)`
where the flag reports suboptimal, the out-of-date error (handled), or any
other error (which `draw` turns into a panic). -/
inductive PresentOutcome where
  | success (suboptimal : Bool)
  | outOfDate
  | otherError
  deriving DecidableEq, Repr

/-- Per-frame environment of `draw`: what the swapchain calls report and the
GPU duration the timestamp query pair would measure. -/
structure DrawEnv where
  acquire : AcquireOutcome
  presentRes : PresentOutcome
  measuredGpuTime : Nat
  deriving DecidableEq, Repr

/-- How one `draw` call ends: `Ok(dirty)`, a panic (unhandled acquire or
present error), or a fence wait that can never return because the fence is
unsignaled with no pending submission. -/
inductive DrawResultKind where
  | ok (dirty : Bool)
  | panicked
  | blockedForever
  deriving DecidableEq, Repr

/-- Result of one `draw` call: next ring state, next stats, the trace of
synchronization actions performed, and how the call ended. -/
structure DrawResult where
  frames : InFlightFrames
  stats : FrameStats
  trace : List Event
  outcome : DrawResultKind
  deriving Repr

/-- The part of `BaseApp::draw` after the fence wait succeeded.  `s2` is the
ring with the current fence now signaled and not pending, `cur` the current
slot, `already` whether the wait returned immediately, `stats1` the stats
after `set_gpu_time_time` and `tick`, `queryTrace` the (possibly empty)
query-pool read.  Mirrors the source order: acquire; on out-of-date return
`Ok(true)`; otherwise reset the fence, record, submit (waiting on the slot's
image-available semaphore, signaling its render-finished semaphore, fenced by
the slot's fence), then present waiting on the render-finished semaphore. -/
def drawBody (s2 : InFlightFrames) (cur : Nat) (already : Bool) (stats1 : FrameStats)
    (queryTrace : List Event) (acq : AcquireOutcome) (pres : PresentOutcome) : DrawResult :=
  let tracePre := Event.waitFence cur already :: (queryTrace ++ [Event.acquireImage cur])
  match acq with
  | AcquireOutcome.outOfDate => ⟨s2, stats1, tracePre, DrawResultKind.ok true⟩
  | AcquireOutcome.otherError => ⟨s2, stats1, tracePre, DrawResultKind.panicked⟩
  | AcquireOutcome.success idx =>
    let s4 := (s2.setFence { signaled := false, pending := false }).setFence
      { signaled := false, pending := true }
    let trace := tracePre ++
      [Event.resetFence cur, Event.record idx,
       Event.submit cur (SemId.imageAvailable cur) (SemId.renderFinished cur),
       Event.present idx (SemId.renderFinished cur)]
    match pres with
    | PresentOutcome.success subopt => ⟨s4, stats1, trace, DrawResultKind.ok subopt⟩
    | PresentOutcome.outOfDate => ⟨s4, stats1, trace, DrawResultKind.ok true⟩
    | PresentOutcome.otherError => ⟨s4, stats1, trace, DrawResultKind.panicked⟩

/-- Embeds the synchronization skeleton of `BaseApp::draw`: advance the ring,
wait on the current slot's fence, compute the reported GPU time (reading the
query pool only from frame `IN_FLIGHT_FRAMES` on) and tick the stats, then
acquire/reset/record/submit/present as in `drawBody`.  If the wait can never
return, the call blocks forever and performs nothing. -/
def draw (s0 : InFlightFrames) (stats0 : FrameStats) (env : DrawEnv) : DrawResult :=
  let s1 := s0.next
  let f := s1.fence
  if f.signaled || f.pending then
    drawBody (s1.setFence { signaled := true, pending := false }) s1.currentFrame f.signaled
      { totalFrameCount := stats0.totalFrameCount + 1
        gpuTime := gpuTimeReport stats0.totalFrameCount env.measuredGpuTime }
      (if IN_FLIGHT_FRAMES ≤ stats0.totalFrameCount then [Event.readQueryPool s1.currentFrame]
       else [])
      env.acquire env.presentRes
  else
    ⟨s1, stats0, [], DrawResultKind.blockedForever⟩

/-- Embeds `BaseApp::recreate_swapchain` as its trace: `wait_for_gpu`
(`device_wait_idle`) first, then `swapchain.update`, then (raytracing only)
the storage-image rebuild, then (when a format was requested) the GUI
framebuffer-parameter update. -/
def recreate_swapchain (raytracingEnabled : Bool) (width height : Nat)
    (format : Option Nat) : List Event :=
  [Event.deviceWaitIdle, Event.swapchainUpdate width height format]
    ++ (if raytracingEnabled then [Event.recreateStorageImages] else [])
    ++ (match format with
        | some f => [Event.guiUpdateFramebufferParams f]
        | none => [])

/-- The fields of `AppWrapper` and `BaseApp` driving the frame loop. -/
structure AppState where
  frames : InFlightFrames
  stats : FrameStats
  isSwapchainDirty : Bool
  requestedSwapchainFormat : Option Nat
  raytracingEnabled : Bool
  deriving DecidableEq, Repr

/-- Embeds `BaseApp::request_swapchain_format_change`: stores the format,
overwriting any previous request. -/
def request_swapchain_format_change (st : AppState) (format : Nat) : AppState :=
  { st with requestedSwapchainFormat := some format }

/-- Per-iteration environment of the loop: the window dimensions reported by
`inner_size` and the draw environment. -/
structure TickEnv where
  width : Nat
  height : Nat
  env : DrawEnv
  deriving DecidableEq, Repr

/-- Result of one `about_to_wait` iteration; `outcome` is `none` when the
iteration returned before drawing (zero-area window). -/
structure TickResult where
  state : AppState
  trace : List Event
  outcome : Option DrawResultKind
  deriving Repr

/-- The dirty flag after a draw: `self.is_swapchain_dirty = draw(..)` on
`Ok(dirty)`; on panic the program dies before the assignment. -/
def dirtyAfter : DrawResultKind → Bool → Bool
  | DrawResultKind.ok d, _ => d
  | _, old => old

/-- Embeds `AppWrapper::about_to_wait`: when the dirty flag is set or a format
change is requested, `take()` the request; with a positive-area window,
recreate the swapchain (with the taken format) and continue to `draw`;
with a zero-area window return early, the request already consumed.
Otherwise just `draw`.  The draw result becomes the new dirty flag. -/
def about_to_wait (st : AppState) (tick : TickEnv) : TickResult :=
  if st.isSwapchainDirty || st.requestedSwapchainFormat.isSome then
    let format := st.requestedSwapchainFormat
    let st1 := { st with requestedSwapchainFormat := none }
    if 0 < tick.width ∧ 0 < tick.height then
      let rtrace := recreate_swapchain st1.raytracingEnabled tick.width tick.height format
      let d := draw st1.frames st1.stats tick.env
      ⟨{ st1 with
          frames := d.frames
          stats := d.stats
          isSwapchainDirty := dirtyAfter d.outcome st1.isSwapchainDirty },
        rtrace ++ d.trace, some d.outcome⟩
    else
      ⟨st1, [], none⟩
  else
    let d := draw st.frames st.stats tick.env
    ⟨{ st with
        frames := d.frames
        stats := d.stats
        isSwapchainDirty := dirtyAfter d.outcome st.isSwapchainDirty },
      d.trace, some d.outcome⟩

/-- Whether a draw outcome terminates the loop (panic kills the process, a
blocked wait never returns). -/
def stopsLoop : Option DrawResultKind → Bool
  | some DrawResultKind.panicked => true
  | some DrawResultKind.blockedForever => true
  | _ => false

/-- Result of running the loop: final state, concatenated trace, and the
outcome that stopped it early (if any). -/
structure RunResult where
  state : AppState
  trace : List Event
  stopped : Option DrawResultKind
  deriving Repr

/-- Runs `about_to_wait` over a list of per-iteration environments, stopping
early on a panic or a forever-blocked wait. -/
def runTicks (st : AppState) : List TickEnv → RunResult
  | [] => ⟨st, [], none⟩
  | t :: rest =>
    let r := about_to_wait st t
    if stopsLoop r.outcome then ⟨r.state, r.trace, r.outcome⟩
    else
      let rr := runTicks r.state rest
      ⟨rr.state, r.trace ++ rr.trace, rr.stopped⟩

/-- The state the loop starts from: `run` sets `is_swapchain_dirty: false`,
`BaseApp::new` builds the ring with `IN_FLIGHT_FRAMES` slots and no pending
format request, and `FrameStats::default` starts the counters at zero. -/
def initialAppState (raytracingEnabled : Bool) : AppState :=
  { frames := InFlightFrames.new IN_FLIGHT_FRAMES
    stats := { totalFrameCount := 0, gpuTime := 0 }
    isSwapchainDirty := false
    requestedSwapchainFormat := none
    raytracingEnabled := raytracingEnabled }

/-- One step of the slot-reuse bookkeeping: the flag of a slot is raised by a
submission against the slot's fence and cleared by a successful wait on it. -/
def slotStep (f : Nat → Bool) : Event → (Nat → Bool)
  | Event.waitFence s _ => fun t => if t = s then false else f t
  | Event.submit s _ _ => fun t => if t = s then true else f t
  | _ => f

/-- Folds `slotStep` over a trace. -/
def slotRun (f : Nat → Bool) : List Event → (Nat → Bool)
  | [] => f
  | e :: rest => slotRun (slotStep f e) rest

/-- The slot-reuse safety checker: scanning the trace, a fence reset or a new
submission against a slot is allowed only when no submission has been made
against that slot since the last successful wait on its fence. -/
def slotCheck (f : Nat → Bool) : List Event → Bool
  | [] => true
  | e :: rest =>
    (match e with
     | Event.resetFence s => !f s
     | Event.submit s _ _ => !f s
     | _ => true) && slotCheck (slotStep f e) rest

/-- Every fence in the ring is signaled or has a pending submission that will
signal it, so no wait on it can block forever. -/
def fencesLive (s : InFlightFrames) : Bool :=
  s.perFrames.all fun f => f.signaled || f.pending

/-- Number of queue submissions in a trace. -/
def countSubmits (l : List Event) : Nat :=
  l.countP fun e => match e with
    | Event.submit _ _ _ => true
    | _ => false

/-- Number of presentation requests in a trace. -/
def countPresents (l : List Event) : Nat :=
  l.countP fun e => match e with
    | Event.present _ _ => true
    | _ => false

/-- Number of command-recording phases in a trace. -/
def countRecords (l : List Event) : Nat :=
  l.countP fun e => match e with
    | Event.record _ => true
    | _ => false

/-- Number of fence resets in a trace. -/
def countResets (l : List Event) : Nat :=
  l.countP fun e => match e with
    | Event.resetFence _ => true
    | _ => false

/-- Number of image acquisitions in a trace. -/
def countAcquires (l : List Event) : Nat :=
  l.countP fun e => match e with
    | Event.acquireImage _ => true
    | _ => false

/-- The formats of the swapchain recreations in a trace, in order. -/
def recreationFormats (l : List Event) : List (Option Nat) :=
  l.filterMap fun e => match e with
    | Event.swapchainUpdate _ _ f => some f
    | _ => none

/-- The ring slot of each frame in a trace, in order (one successful fence
wait starts each frame). -/
def slotsUsed (l : List Event) : List Nat :=
  l.filterMap fun e => match e with
    | Event.waitFence s _ => some s
    | _ => none

/-- Whether a trace reads a timing query pool. -/
def hasQueryRead (l : List Event) : Bool :=
  l.any fun e => match e with
    | Event.readQueryPool _ => true
    | _ => false

/-- Projection of a trace onto the graphics/present queue operations. -/
inductive QueueOp where
  | submitOp (slot : Nat) (waitSem signalSem : SemId)
  | presentOp (imageIndex : Nat) (waitSem : SemId)
  deriving DecidableEq, Repr

/-- The queue operations of a trace, in order, with their semaphore lists. -/
def queueOps (l : List Event) : List QueueOp :=
  l.filterMap fun e => match e with
    | Event.submit s w g => some (QueueOp.submitOp s w g)
    | Event.present i w => some (QueueOp.presentOp i w)
    | _ => none

/-- Events that replace or rebuild swapchain-dependent resources. -/
def isRebuildEv : Event → Bool
  | Event.swapchainUpdate _ _ _ => true
  | Event.recreateStorageImages => true
  | Event.guiUpdateFramebufferParams _ => true
  | _ => false

/-- A draw environment where acquire and present succeed without staleness. -/
def normalDrawEnv : DrawEnv :=
  { acquire := AcquireOutcome.success 0
    presentRes := PresentOutcome.success false
    measuredGpuTime := 0 }

/-- A loop iteration with a positive-area window and a normal draw. -/
def normalTick : TickEnv :=
  { width := 800, height := 600, env := normalDrawEnv }

example :
    slotsUsed (runTicks (initialAppState false) (List.replicate 5 normalTick)).trace
      = [1, 0, 1, 0, 1] := by decide

example :
    countPresents (runTicks (initialAppState false) (List.replicate 5 normalTick)).trace
      = 5 := by decide

example :
    slotCheck (fun _ => false)
      (runTicks (initialAppState false) (List.replicate 5 normalTick)).trace = true := by decide

theorem setFence_currentFrame (s : InFlightFrames) (v : FenceState) :
    (s.setFence v).currentFrame = s.currentFrame := rfl

theorem setFence_setFence (s : InFlightFrames) (v w : FenceState) :
    (s.setFence v).setFence w = s.setFence w := by
  simp [InFlightFrames.setFence, List.set_set]

theorem next_perFrames (s : InFlightFrames) : (s.next).perFrames = s.perFrames := rfl

theorem next_currentFrame_lt (s : InFlightFrames) (hlen : 0 < s.perFrames.length) :
    (s.next).currentFrame < s.perFrames.length :=
  Nat.mod_lt _ hlen

theorem fence_setFence (s : InFlightFrames) (v : FenceState)
    (h : s.currentFrame < s.perFrames.length) : (s.setFence v).fence = v := by
  simp [InFlightFrames.fence, InFlightFrames.setFence, List.getD_eq_getElem?_getD,
    List.getElem?_set_self h]

theorem fencesLive_setFence (s : InFlightFrames) (v : FenceState)
    (hv : (v.signaled || v.pending) = true) (h : fencesLive s = true) :
    fencesLive (s.setFence v) = true := by
  simp only [fencesLive, InFlightFrames.setFence, List.all_eq_true] at h ⊢
  intro x hx
  rcases List.mem_or_eq_of_mem_set hx with h1 | h1
  · exact h x h1
  · rw [h1]; exact hv

theorem fence_live_next (s : InFlightFrames) (hlen : 0 < s.perFrames.length)
    (hlive : fencesLive s = true) :
    ((s.next).fence.signaled || (s.next).fence.pending) = true := by
  have hcur : (s.next).currentFrame < (s.next).perFrames.length := by
    rw [next_perFrames]; exact next_currentFrame_lt s hlen
  have : (s.next).fence ∈ (s.next).perFrames := by
    rw [InFlightFrames.fence, List.getD_eq_getElem?_getD, List.getElem?_eq_getElem hcur]
    exact List.getElem_mem hcur
  rw [next_perFrames] at this
  simp only [fencesLive, List.all_eq_true] at hlive
  exact hlive _ this

theorem slotRun_append (f : Nat → Bool) (a b : List Event) :
    slotRun f (a ++ b) = slotRun (slotRun f a) b := by
  induction a generalizing f with
  | nil => simp [slotRun]
  | cons e rest ih => simp [slotRun, ih]

theorem slotCheck_append (f : Nat → Bool) (a b : List Event) :
    slotCheck f (a ++ b) = (slotCheck f a && slotCheck (slotRun f a) b) := by
  induction a generalizing f with
  | nil => simp [slotCheck, slotRun]
  | cons e rest ih => simp [slotCheck, slotRun, ih, Bool.and_assoc]

theorem slotCheck_draw (f : Nat → Bool) (s : InFlightFrames) (stats : FrameStats)
    (env : DrawEnv) : slotCheck f (draw s stats env).trace = true := by
  obtain ⟨acq, pres, m⟩ := env
  unfold draw drawBody
  by_cases h : ((s.next).fence.signaled || (s.next).fence.pending) = true
  · by_cases hq : IN_FLIGHT_FRAMES ≤ stats.totalFrameCount <;>
      cases acq <;> cases pres <;>
      simp [h, hq, slotCheck, slotStep]
  · simp [h, slotCheck]

theorem slotCheck_recreate (f : Nat → Bool) (rt : Bool) (w h : Nat) (fmt : Option Nat) :
    slotCheck f (recreate_swapchain rt w h fmt) = true := by
  cases rt <;> cases fmt <;> simp [recreate_swapchain, slotCheck, slotStep]

theorem slotRun_recreate (f : Nat → Bool) (rt : Bool) (w h : Nat) (fmt : Option Nat) :
    slotRun f (recreate_swapchain rt w h fmt) = f := by
  cases rt <;> cases fmt <;> simp [recreate_swapchain, slotRun, slotStep]

theorem slotCheck_tick (f : Nat → Bool) (st : AppState) (t : TickEnv) :
    slotCheck f (about_to_wait st t).trace = true := by
  unfold about_to_wait
  by_cases h1 : (st.isSwapchainDirty || st.requestedSwapchainFormat.isSome) = true
  · by_cases h2 : 0 < t.width ∧ 0 < t.height
    · simp [h1, h2, slotCheck_append, slotCheck_recreate, slotRun_recreate, slotCheck_draw]
    · simp [h1, h2, slotCheck]
  · simp [h1, slotCheck_draw]

theorem slotCheck_runTicks (envs : List TickEnv) : ∀ (st : AppState) (f : Nat → Bool),
    slotCheck f (runTicks st envs).trace = true := by
  induction envs with
  | nil => intro st f; simp [runTicks, slotCheck]
  | cons t rest ih =>
    intro st f
    unfold runTicks
    by_cases h : stopsLoop (about_to_wait st t).outcome = true
    · simp [h, slotCheck_tick]
    · simp [h, slotCheck_append, slotCheck_tick, ih]

theorem fencesLive_next (s : InFlightFrames) : fencesLive s.next = fencesLive s := rfl

theorem recreationFormats_draw (s : InFlightFrames) (stats : FrameStats) (env : DrawEnv) :
    recreationFormats (draw s stats env).trace = [] := by
  obtain ⟨acq, pres, m⟩ := env
  unfold draw drawBody
  by_cases h : ((s.next).fence.signaled || (s.next).fence.pending) = true <;>
    by_cases hq : IN_FLIGHT_FRAMES ≤ stats.totalFrameCount <;>
    cases acq <;> cases pres <;>
    simp [h, hq, recreationFormats]

theorem recreationFormats_recreate (rt : Bool) (w h : Nat) (fmt : Option Nat) :
    recreationFormats (recreate_swapchain rt w h fmt) = [fmt] := by
  cases rt <;> cases fmt <;> simp [recreate_swapchain, recreationFormats]

theorem draw_ok_or_blocked (s : InFlightFrames) (stats : FrameStats) (i m : Nat) :
    (draw s stats
        { acquire := AcquireOutcome.success i, presentRes := PresentOutcome.success false,
          measuredGpuTime := m }).outcome = DrawResultKind.ok false ∨
    (draw s stats
        { acquire := AcquireOutcome.success i, presentRes := PresentOutcome.success false,
          measuredGpuTime := m }).outcome = DrawResultKind.blockedForever := by
  unfold draw drawBody
  by_cases h : ((s.next).fence.signaled || (s.next).fence.pending) = true <;> simp [h]

/-- C1: for every frame index `f` of an execution of the frame loop, the
per-frame slot `f mod N` is not reused — its fence is not reset and no new
submission is made against it — until a wait on that slot's fence has
returned success since the slot's last submission.  Stated as: the
slot-reuse checker accepts the complete action trace of any run of the loop
from the initial application state, for any sequence of per-frame
environments (resizes, staleness, format requests included). -/
theorem c1_slot_not_reused_before_fence_wait (rt : Bool) (envs : List TickEnv) :
    slotCheck (fun _ => false) (runTicks (initialAppState rt) envs).trace = true :=
  slotCheck_runTicks envs (initialAppState rt) (fun _ => false)

/-- C7: every invocation of `recreate_swapchain` performs the full
device-idle wait first: its trace starts with the device-idle wait, and
everything after it is exactly the replacement/rebuild of the swapchain and
its dependent resources, so no swapchain-dependent resource is touched
before the wait has returned. -/
theorem c7_device_idle_before_rebuild (rt : Bool) (w h : Nat) (fmt : Option Nat) :
    ∃ rest, recreate_swapchain rt w h fmt = Event.deviceWaitIdle :: rest ∧
      rest.all isRebuildEv = true := by
  cases rt <;> cases fmt <;> exact ⟨_, rfl, rfl⟩

/-- C5 counterexample: with ring depth 2 and 5 normal frames from the
initial state, the slot sequence of the 5 draws is not `0,1,0,1,0` (the ring
advances before its first use, so the first draw uses slot 1). -/
theorem c5_slot_sequence_counterexample :
    slotsUsed (runTicks (initialAppState false) (List.replicate 5 normalTick)).trace
      ≠ [0, 1, 0, 1, 0] := by decide

/-- C5 amended: with ring depth 2 and a sequence of 5 frames with no resize
or staleness, exactly 5 acquire/submit/present cycles complete and the slot
sequence of the 5 draws is `1,0,1,0,1` — `current_frame` starts at 0 but
`draw` advances the ring before using the slot, so the first frame runs on
slot 1. -/
theorem c5_five_frames_slot_sequence :
    slotsUsed (runTicks (initialAppState false) (List.replicate 5 normalTick)).trace
        = [1, 0, 1, 0, 1] ∧
      countAcquires (runTicks (initialAppState false) (List.replicate 5 normalTick)).trace = 5 ∧
      countSubmits (runTicks (initialAppState false) (List.replicate 5 normalTick)).trace = 5 ∧
      countPresents (runTicks (initialAppState false) (List.replicate 5 normalTick)).trace = 5 ∧
      (runTicks (initialAppState false) (List.replicate 5 normalTick)).stopped = none := by
  decide

/-- C3 counterexample: on the very first frame (`total_frame_count = 0 <
IN_FLIGHT_FRAMES`) the reported GPU time is the zero duration — even when
the query pair would have measured 123ns — and it is indistinguishable from
the report of a genuinely measured 0ns frame at `total_frame_count = 2`.
The code reports `Duration::default()` (zero) for the first `N` frames, not
a distinguishable "no GPU timing data available" marker. -/
theorem c3_zero_not_no_data_counterexample :
    (draw (InFlightFrames.new 2) { totalFrameCount := 0, gpuTime := 0 }
        { acquire := AcquireOutcome.success 0, presentRes := PresentOutcome.success false,
          measuredGpuTime := 123 }).stats.gpuTime = 0 ∧
    (draw (InFlightFrames.new 2) { totalFrameCount := 2, gpuTime := 0 }
        { acquire := AcquireOutcome.success 0, presentRes := PresentOutcome.success false,
          measuredGpuTime := 0 }).stats.gpuTime = 0 := by decide

/-- C3 amended: for the first `IN_FLIGHT_FRAMES` frames the timing query
pool is never read (avoiding a hang on `VK_QUERY_RESULT_WAIT_BIT` against
never-written queries) and the reported GPU time defaults to the zero
duration; from frame `IN_FLIGHT_FRAMES` on, the measured query-pool
timestamps are read and reported. -/
theorem c3_first_frames_skip_query_read (s : InFlightFrames) (stats : FrameStats)
    (env : DrawEnv) (hlen : 0 < s.perFrames.length) (hlive : fencesLive s = true) :
    (stats.totalFrameCount < IN_FLIGHT_FRAMES →
      (draw s stats env).stats.gpuTime = 0 ∧
      hasQueryRead (draw s stats env).trace = false) ∧
    (IN_FLIGHT_FRAMES ≤ stats.totalFrameCount →
      (draw s stats env).stats.gpuTime = env.measuredGpuTime ∧
      hasQueryRead (draw s stats env).trace = true) := by
  have h := fence_live_next s hlen hlive
  obtain ⟨acq, pres, m⟩ := env
  unfold draw drawBody
  constructor
  · intro hc
    have hq : ¬ IN_FLIGHT_FRAMES ≤ stats.totalFrameCount := Nat.not_le.mpr hc
    cases acq <;> cases pres <;> simp [h, hq, hasQueryRead, gpuTimeReport]
  · intro hc
    cases acq <;> cases pres <;> simp [h, hc, hasQueryRead, gpuTimeReport]

/-- Witness for the amended C3 theorem at concrete inputs: frame 0 with a
55ns measurement reports 0 and performs no query read. -/
theorem c3_first_frames_skip_query_read_witness :
    (draw (InFlightFrames.new 2) { totalFrameCount := 0, gpuTime := 0 }
        { acquire := AcquireOutcome.success 0, presentRes := PresentOutcome.success false,
          measuredGpuTime := 55 }).stats.gpuTime = 0 ∧
    hasQueryRead (draw (InFlightFrames.new 2) { totalFrameCount := 0, gpuTime := 0 }
        { acquire := AcquireOutcome.success 0, presentRes := PresentOutcome.success false,
          measuredGpuTime := 55 }).trace = false := by
  exact (c3_first_frames_skip_query_read (InFlightFrames.new 2)
    { totalFrameCount := 0, gpuTime := 0 }
    { acquire := AcquireOutcome.success 0, presentRes := PresentOutcome.success false,
      measuredGpuTime := 55 } (by decide) (by decide)).1 (by decide)

/-- C2: when image acquisition reports the swapchain out of date, `draw`
returns `Ok(true)` (the dirty flag, triggering recreation on the next loop
iteration) with no command recording, no queue submission and no present for
that frame; when presentation reports out-of-date or suboptimal, `draw` also
returns `Ok(true)`.  None of these conditions surfaces as a panic or error. -/
theorem c2_staleness_is_dirty_not_error (s : InFlightFrames) (stats : FrameStats)
    (p : PresentOutcome) (m idx : Nat)
    (hlen : 0 < s.perFrames.length) (hlive : fencesLive s = true) :
    ((draw s stats ⟨AcquireOutcome.outOfDate, p, m⟩).outcome = DrawResultKind.ok true ∧
      countRecords (draw s stats ⟨AcquireOutcome.outOfDate, p, m⟩).trace = 0 ∧
      countSubmits (draw s stats ⟨AcquireOutcome.outOfDate, p, m⟩).trace = 0 ∧
      countPresents (draw s stats ⟨AcquireOutcome.outOfDate, p, m⟩).trace = 0) ∧
    (draw s stats ⟨AcquireOutcome.success idx, PresentOutcome.outOfDate, m⟩).outcome
        = DrawResultKind.ok true ∧
    (draw s stats ⟨AcquireOutcome.success idx, PresentOutcome.success true, m⟩).outcome
        = DrawResultKind.ok true := by
  have h := fence_live_next s hlen hlive
  unfold draw drawBody
  by_cases hq : IN_FLIGHT_FRAMES ≤ stats.totalFrameCount <;>
    simp [h, hq, countRecords, countSubmits, countPresents, List.countP_cons]

/-- Witness for C2 at concrete inputs. -/
theorem c2_staleness_is_dirty_not_error_witness :
    ((draw (InFlightFrames.new 2) ⟨0, 0⟩
        ⟨AcquireOutcome.outOfDate, PresentOutcome.success false, 0⟩).outcome
        = DrawResultKind.ok true ∧
      countRecords (draw (InFlightFrames.new 2) ⟨0, 0⟩
        ⟨AcquireOutcome.outOfDate, PresentOutcome.success false, 0⟩).trace = 0 ∧
      countSubmits (draw (InFlightFrames.new 2) ⟨0, 0⟩
        ⟨AcquireOutcome.outOfDate, PresentOutcome.success false, 0⟩).trace = 0 ∧
      countPresents (draw (InFlightFrames.new 2) ⟨0, 0⟩
        ⟨AcquireOutcome.outOfDate, PresentOutcome.success false, 0⟩).trace = 0) ∧
    (draw (InFlightFrames.new 2) ⟨0, 0⟩
        ⟨AcquireOutcome.success 0, PresentOutcome.outOfDate, 0⟩).outcome
        = DrawResultKind.ok true ∧
    (draw (InFlightFrames.new 2) ⟨0, 0⟩
        ⟨AcquireOutcome.success 0, PresentOutcome.success true, 0⟩).outcome
        = DrawResultKind.ok true :=
  c2_staleness_is_dirty_not_error (InFlightFrames.new 2) ⟨0, 0⟩
    (PresentOutcome.success false) 0 0 (by decide) (by decide)

/-- C6: in every frame that reaches submission, the queue operations of the
frame are exactly one submission — waiting on the current slot's
image-available semaphore, signaled by the acquire, and signaling the
current slot's render-finished semaphore — followed by one present waiting
on that same render-finished semaphore.  The ordering is enforced by these
semaphore lists, not by any CPU-side wait between submit and present. -/
theorem c6_submission_semaphore_lists (s : InFlightFrames) (stats : FrameStats)
    (idx m : Nat) (p : PresentOutcome)
    (hlen : 0 < s.perFrames.length) (hlive : fencesLive s = true) :
    queueOps (draw s stats ⟨AcquireOutcome.success idx, p, m⟩).trace =
      [QueueOp.submitOp (s.next).currentFrame
        (SemId.imageAvailable (s.next).currentFrame)
        (SemId.renderFinished (s.next).currentFrame),
       QueueOp.presentOp idx (SemId.renderFinished (s.next).currentFrame)] := by
  have h := fence_live_next s hlen hlive
  unfold draw drawBody
  by_cases hq : IN_FLIGHT_FRAMES ≤ stats.totalFrameCount <;>
    cases p <;> simp [h, hq, queueOps]

/-- Witness for C6 at concrete inputs (the first frame of a fresh ring runs
on slot 1). -/
theorem c6_submission_semaphore_lists_witness :
    queueOps (draw (InFlightFrames.new 2) ⟨0, 0⟩
        ⟨AcquireOutcome.success 0, PresentOutcome.success false, 0⟩).trace =
      [QueueOp.submitOp 1 (SemId.imageAvailable 1) (SemId.renderFinished 1),
       QueueOp.presentOp 0 (SemId.renderFinished 1)] :=
  c6_submission_semaphore_lists (InFlightFrames.new 2) ⟨0, 0⟩
    0 0 (PresentOutcome.success false) (by decide) (by decide)

/-- C10: the current slot's fence is reset only after image acquisition
succeeds.  Any draw from a ring whose fences are all signaled-or-pending
leaves the ring in that state again; and on the early-return path where
acquisition reports out-of-date, `draw` returns `Ok(true)` with no fence
reset, leaving the slot's fence signaled with no pending submission — so a
later frame revisiting the slot cannot block on its wait. -/
theorem c10_reset_only_after_acquire (s : InFlightFrames) (stats : FrameStats)
    (env : DrawEnv) (hlen : 0 < s.perFrames.length) (hlive : fencesLive s = true) :
    fencesLive (draw s stats env).frames = true ∧
    (env.acquire = AcquireOutcome.outOfDate →
      (draw s stats env).outcome = DrawResultKind.ok true ∧
      (draw s stats env).frames.fence = { signaled := true, pending := false } ∧
      countResets (draw s stats env).trace = 0) := by
  have h := fence_live_next s hlen hlive
  have hcur : (s.next).currentFrame < (s.next).perFrames.length := by
    rw [next_perFrames]; exact next_currentFrame_lt s hlen
  have hlive1 : fencesLive (s.next) = true := by rw [fencesLive_next]; exact hlive
  have hA : fencesLive ((s.next).setFence { signaled := false, pending := true }) = true :=
    fencesLive_setFence _ _ (by decide) hlive1
  have hB : fencesLive ((s.next).setFence { signaled := true, pending := false }) = true :=
    fencesLive_setFence _ _ (by decide) hlive1
  obtain ⟨acq, pres, m⟩ := env
  unfold draw drawBody
  by_cases hq : IN_FLIGHT_FRAMES ≤ stats.totalFrameCount <;>
    cases acq <;> cases pres <;>
    simp [h, hq, countResets, List.countP_cons, setFence_setFence,
      fence_setFence _ _ hcur, hA, hB]

/-- Witness for C10 at concrete inputs: acquire reports out-of-date on the
first frame of a fresh ring. -/
theorem c10_reset_only_after_acquire_witness :
    fencesLive (draw (InFlightFrames.new 2) ⟨0, 0⟩
        ⟨AcquireOutcome.outOfDate, PresentOutcome.success false, 0⟩).frames = true ∧
    (AcquireOutcome.outOfDate = AcquireOutcome.outOfDate →
      (draw (InFlightFrames.new 2) ⟨0, 0⟩
        ⟨AcquireOutcome.outOfDate, PresentOutcome.success false, 0⟩).outcome
          = DrawResultKind.ok true ∧
      (draw (InFlightFrames.new 2) ⟨0, 0⟩
        ⟨AcquireOutcome.outOfDate, PresentOutcome.success false, 0⟩).frames.fence
          = { signaled := true, pending := false } ∧
      countResets (draw (InFlightFrames.new 2) ⟨0, 0⟩
        ⟨AcquireOutcome.outOfDate, PresentOutcome.success false, 0⟩).trace = 0) :=
  c10_reset_only_after_acquire (InFlightFrames.new 2) ⟨0, 0⟩
    ⟨AcquireOutcome.outOfDate, PresentOutcome.success false, 0⟩ (by decide) (by decide)

theorem recreationFormats_append (a b : List Event) :
    recreationFormats (a ++ b) = recreationFormats a ++ recreationFormats b := by
  simp [recreationFormats]

theorem about_to_wait_recreates (st : AppState) (t : TickEnv)
    (hcond : (st.isSwapchainDirty || st.requestedSwapchainFormat.isSome) = true)
    (hw : 0 < t.width) (hh : 0 < t.height) :
    about_to_wait st t =
      ⟨{ st with
          requestedSwapchainFormat := none
          frames := (draw st.frames st.stats t.env).frames
          stats := (draw st.frames st.stats t.env).stats
          isSwapchainDirty := dirtyAfter (draw st.frames st.stats t.env).outcome
            st.isSwapchainDirty },
        recreate_swapchain st.raytracingEnabled t.width t.height st.requestedSwapchainFormat
          ++ (draw st.frames st.stats t.env).trace,
        some (draw st.frames st.stats t.env).outcome⟩ := by
  unfold about_to_wait
  simp [hcond, hw, hh]

theorem about_to_wait_clean (st : AppState) (t : TickEnv)
    (hd : st.isSwapchainDirty = false) (hr : st.requestedSwapchainFormat = none) :
    about_to_wait st t =
      ⟨{ st with
          frames := (draw st.frames st.stats t.env).frames
          stats := (draw st.frames st.stats t.env).stats
          isSwapchainDirty := dirtyAfter (draw st.frames st.stats t.env).outcome
            st.isSwapchainDirty },
        (draw st.frames st.stats t.env).trace,
        some (draw st.frames st.stats t.env).outcome⟩ := by
  unfold about_to_wait
  simp [hd, hr]

theorem about_to_wait_zero_area (st : AppState) (t : TickEnv)
    (hcond : (st.isSwapchainDirty || st.requestedSwapchainFormat.isSome) = true)
    (hz : ¬ (0 < t.width ∧ 0 < t.height)) :
    about_to_wait st t = ⟨{ st with requestedSwapchainFormat := none }, [], none⟩ := by
  unfold about_to_wait
  simp [hcond, hz]

theorem draw_ok_false (s : InFlightFrames) (stats : FrameStats) (i m : Nat)
    (hlen : 0 < s.perFrames.length) (hlive : fencesLive s = true) :
    (draw s stats ⟨AcquireOutcome.success i, PresentOutcome.success false, m⟩).outcome
      = DrawResultKind.ok false := by
  have h := fence_live_next s hlen hlive
  unfold draw drawBody
  by_cases hq : IN_FLIGHT_FRAMES ≤ stats.totalFrameCount <;> simp [h, hq]

/-- C4: two format-change requests before a frame boundary (the second
possibly equal to the first) are consumed as one: at the boundary exactly
one swapchain recreation occurs, it uses the last requested format, the
pending request is cleared, and the following frame boundary performs no
further recreation. -/
theorem c4_format_request_consumed_once (st : AppState) (a b : Nat) (t1 t2 : TickEnv)
    (i1 m1 : Nat)
    (hlen : 0 < st.frames.perFrames.length) (hlive : fencesLive st.frames = true)
    (hw1 : 0 < t1.width) (hh1 : 0 < t1.height)
    (he1 : t1.env = ⟨AcquireOutcome.success i1, PresentOutcome.success false, m1⟩) :
    recreationFormats (about_to_wait (request_swapchain_format_change
        (request_swapchain_format_change st a) b) t1).trace = [some b] ∧
    (about_to_wait (request_swapchain_format_change
        (request_swapchain_format_change st a) b) t1).state.requestedSwapchainFormat
        = none ∧
    recreationFormats (about_to_wait ((about_to_wait (request_swapchain_format_change
        (request_swapchain_format_change st a) b) t1).state) t2).trace = [] := by
  have hcond : ((request_swapchain_format_change
      (request_swapchain_format_change st a) b).isSwapchainDirty ||
      (request_swapchain_format_change
        (request_swapchain_format_change st a) b).requestedSwapchainFormat.isSome)
      = true := by
    simp [request_swapchain_format_change]
  rw [about_to_wait_recreates _ _ hcond hw1 hh1]
  have hout : (draw (request_swapchain_format_change
      (request_swapchain_format_change st a) b).frames
      (request_swapchain_format_change
        (request_swapchain_format_change st a) b).stats t1.env).outcome
      = DrawResultKind.ok false := by
    rw [he1]
    exact draw_ok_false _ _ i1 m1 hlen hlive
  refine ⟨?_, rfl, ?_⟩
  · rw [recreationFormats_append, recreationFormats_draw, recreationFormats_recreate]
    simp [request_swapchain_format_change]
  · rw [about_to_wait_clean]
    · rw [recreationFormats_draw]
    · simp [hout, dirtyAfter]
    · rfl

/-- Witness for C4 at concrete inputs: requests for formats 3 then 7 from
the initial state, drawn through two normal frames. -/
theorem c4_format_request_consumed_once_witness :
    recreationFormats (about_to_wait (request_swapchain_format_change
        (request_swapchain_format_change (initialAppState false) 3) 7) normalTick).trace
        = [some 7] ∧
    (about_to_wait (request_swapchain_format_change
        (request_swapchain_format_change (initialAppState false) 3) 7)
        normalTick).state.requestedSwapchainFormat = none ∧
    recreationFormats (about_to_wait ((about_to_wait (request_swapchain_format_change
        (request_swapchain_format_change (initialAppState false) 3) 7)
        normalTick).state) normalTick).trace = [] :=
  c4_format_request_consumed_once (initialAppState false) 3 7 normalTick normalTick 0 0
    (by decide) (by decide) (by decide) (by decide) rfl

/-- C8 counterexample: a pending format-change request (format 7) that hits
a zero-area frame boundary is consumed and lost — over the zero-area
boundary and two subsequent normal-size frames no recreation occurs at all
(so in particular none with format 7), refuting that the pending request
still results in a recreation with that format once recreation becomes
possible.  The loop does not crash (no panic, nothing blocked). -/
theorem c8_format_request_lost_counterexample :
    recreationFormats (runTicks
        (request_swapchain_format_change (initialAppState false) 7)
        [⟨0, 600, normalDrawEnv⟩, normalTick, normalTick]).trace = [] ∧
    (runTicks (request_swapchain_format_change (initialAppState false) 7)
        [⟨0, 600, normalDrawEnv⟩, normalTick, normalTick]).stopped = none := by
  decide

/-- C8 amended: a zero-area recreation attempt is handled without
terminating the program — the iteration returns before recreating or
drawing, the dirty flag stays set so the attempt is retried at the next
boundary, and a boundary with positive dimensions then does recreate; but a
format-change request pending at the zero-area boundary has already been
consumed (`take()` runs before the dimension check), so the later
recreation uses no requested format. -/
theorem c8_zero_area_skip_drops_format (st : AppState) (f h1 w2 h2 : Nat)
    (e1 e2 : DrawEnv) :
    (about_to_wait { request_swapchain_format_change st f with isSwapchainDirty := true }
        ⟨0, h1, e1⟩).trace = [] ∧
    (about_to_wait { request_swapchain_format_change st f with isSwapchainDirty := true }
        ⟨0, h1, e1⟩).outcome = none ∧
    (about_to_wait { request_swapchain_format_change st f with isSwapchainDirty := true }
        ⟨0, h1, e1⟩).state.isSwapchainDirty = true ∧
    (about_to_wait { request_swapchain_format_change st f with isSwapchainDirty := true }
        ⟨0, h1, e1⟩).state.requestedSwapchainFormat = none ∧
    recreationFormats (about_to_wait (about_to_wait
        { request_swapchain_format_change st f with isSwapchainDirty := true }
        ⟨0, h1, e1⟩).state ⟨w2 + 1, h2 + 1, e2⟩).trace = [none] := by
  rw [about_to_wait_zero_area _ _ (by simp) (by simp)]
  refine ⟨rfl, rfl, rfl, rfl, ?_⟩
  rw [about_to_wait_recreates _ _ (by simp [request_swapchain_format_change])
    (Nat.succ_pos w2) (Nat.succ_pos h2)]
  rw [recreationFormats_append, recreationFormats_draw, recreationFormats_recreate]
  simp [request_swapchain_format_change]

theorem draw_head_live (s : InFlightFrames) (stats : FrameStats) (env : DrawEnv)
    (hf : (s.next).fence.signaled = true) :
    (draw s stats env).trace.head? = some (Event.waitFence (s.next).currentFrame true) := by
  obtain ⟨a, p, m⟩ := env
  have h : ((s.next).fence.signaled || (s.next).fence.pending) = true := by simp [hf]
  unfold draw drawBody
  by_cases hq : IN_FLIGHT_FRAMES ≤ stats.totalFrameCount <;>
    cases a <;> cases p <;> simp [h, hf, hq]

/-- C9: every per-frame fence is created in the signaled state
(`InFlightFrames::new` passes `SIGNALED` to `VkFence::new` for each slot),
so for each ring slot of the depth-2 ring the very first fence wait in
`draw` returns immediately (already signaled) even though no submission has
ever been made against the slot: the first draw of a fresh ring waits on
slot 1 and finds it already signaled, and — whatever that frame's
environment was — the second draw waits on slot 0 and also finds it already
signaled, so the ring bootstrap can never block on an unsubmitted slot. -/
theorem c9_fences_created_signaled (n : Nat) (stats0 stats1 : FrameStats)
    (e1 e2 : DrawEnv) :
    (InFlightFrames.new n).perFrames
        = List.replicate n { signaled := true, pending := false } ∧
    (draw (InFlightFrames.new 2) stats0 e1).trace.head?
        = some (Event.waitFence 1 true) ∧
    (draw (draw (InFlightFrames.new 2) stats0 e1).frames stats1 e2).trace.head?
        = some (Event.waitFence 0 true) := by
  have hfr : (draw (InFlightFrames.new 2) stats0 e1).frames.next.fence.signaled = true ∧
      (draw (InFlightFrames.new 2) stats0 e1).frames.next.currentFrame = 0 := by
    obtain ⟨a1, p1, m1⟩ := e1
    have h2 : ((InFlightFrames.new 2).next.fence.signaled ||
        (InFlightFrames.new 2).next.fence.pending) = true := by decide
    unfold draw drawBody
    by_cases hq : IN_FLIGHT_FRAMES ≤ stats0.totalFrameCount <;>
      cases a1 <;> cases p1 <;> simp [h2, hq] <;> decide
  refine ⟨rfl, ?_, ?_⟩
  · rw [draw_head_live _ _ _ (by decide)]
    decide
  · rw [draw_head_live _ _ _ hfr.1, hfr.2]
